import Mathlib

/-!
Verification of the Google Sheets MCP server (a FastAPI bridge exposing
Google Sheets capabilities over a JSON-RPC style tool-calling protocol).

The development shallowly embeds the two source modules:

* `tokens.py` — the on-disk credential store (`load_tokens` / `save_tokens`),
  modelled with an explicit file-system state so the atomic
  write-to-temp-then-rename discipline of `save_tokens` can be analysed
  step by step;
* `main.py` — the OAuth callback handler (`google_callback`), the
  credential-resolution helper (`get_sheets_service`), the three sheets
  capability wrappers, and the `/mcp` dispatcher (`mcp_handler`).

External collaborators (the JSON codec, the OAuth code exchange, the remote
Sheets API) are modelled as environments/inputs: JSON (de)serialisation is
abstracted to a `FileData` value that either holds a decoded mapping or is
malformed, the provider's token response is an input of `google_callback`,
and the remote Sheets service is an oracle `RemoteCall → JsonVal` while every
remote invocation performed is recorded in an explicit call trace.
-/

/-- A JSON value, as produced by `json.loads` / sent in JSON bodies. -/
inductive JsonVal where
  | null
  | bool (b : Bool)
  | num (n : Int)
  | str (s : String)
  | arr (xs : List JsonVal)
  | obj (fields : List (String × JsonVal))

/-- Lookup of a key in a JSON object (Python `d[k]` / `d.get(k)` on a dict
decoded from JSON); `none` on a missing key or a non-object. -/
def JsonVal.getKey : JsonVal → String → Option JsonVal
  | .obj fields, k => (fields.find? (fun p => p.1 = k)).map Prod.snd
  | _, _ => none

/-- A Python value that may be `None`, rendered into JSON (`None ↦ null`). -/
def optJson (o : Option JsonVal) : JsonVal :=
  o.getD .null

/-- One stored credential record: `{"token": ..., "refresh_token": ...}` as
written by `google_callback` in `main.py`.  Either field may be JSON `null`
(Python `None`), hence `Option`. -/
structure TokenRecord where
  token : Option String
  refresh_token : Option String
deriving Repr, DecidableEq

/-- The decoded content of `tokens.json`: a mapping from `user_id` to its
credential record, kept as an association list in insertion order (the order
Python dicts preserve). -/
def TokenMap := List (String × TokenRecord)

instance : DecidableEq TokenMap := by
  unfold TokenMap
  infer_instance

/-- Python `tokens[user_id]` (dict lookup, as an option). -/
def lookupTok : TokenMap → String → Option TokenRecord
  | [], _ => none
  | (k0, v0) :: rest, k => if k0 = k then some v0 else lookupTok rest k

/-- Python `tokens[user_id] = rec`: replace the value at an existing key in
place, or append a new binding at the end (dict insertion-order semantics). -/
def setTok : TokenMap → String → TokenRecord → TokenMap
  | [], k, v => [(k, v)]
  | (k0, v0) :: rest, k, v =>
      if k0 = k then (k, v) :: rest else (k0, v0) :: setTok rest k v

/-- The bytes of one file on disk, as far as `json` can see them: either a
well-formed serialisation of a token mapping, or content on which
`json.loads` raises `JSONDecodeError`.  (An empty, freshly created file is
`garbage`: it is not valid JSON.) -/
inductive FileData where
  | json (m : TokenMap)
  | garbage
deriving DecidableEq

/-- The slice of the file system `tokens.py` touches: the target file
`tokens.json` and the temporary file `NamedTemporaryFile` creates next to
it.  `none` means the path does not exist. -/
structure FS where
  target : Option FileData
  temp : Option FileData
deriving DecidableEq

/-- Model of `load_tokens` from `tokens.py`: empty mapping if the file is absent,
decoded mapping if it parses, empty mapping on `JSONDecodeError`. -/
def load_tokens (fs : FS) : TokenMap :=
  match fs.target with
  | none => []
  | some (.json m) => m
  | some .garbage => []

/-- The individual file-system effects of `save_tokens`, in program order:
create the temporary file (empty), `json.dump` the mapping into it, then
`Path(temp_name).replace(TOKEN_FILE)`. -/
inductive SaveStep where
  | createTemp
  | writeTemp
  | rename
deriving DecidableEq

/-- Effect of one step of `save_tokens` on the file system. -/
def runStep (m : TokenMap) (fs : FS) : SaveStep → FS
  | .createTemp => { fs with temp := some .garbage }
  | .writeTemp => { fs with temp := some (.json m) }
  | .rename => { target := fs.temp, temp := none }

/-- The steps `save_tokens` performs, in order. -/
def save_steps : List SaveStep :=
  [.createTemp, .writeTemp, .rename]

/-- Model of `save_tokens` from `tokens.py`: run all steps to completion. -/
def save_tokens (m : TokenMap) (fs : FS) : FS :=
  save_steps.foldl (runStep m) fs

/-- The file system after `save_tokens` is interrupted right after its first
`k` steps (an exception or crash before the remaining effects happen). -/
def save_interrupted (m : TokenMap) (fs : FS) (k : Nat) : FS :=
  (save_steps.take k).foldl (runStep m) fs

/-!
## `main.py`: configuration, OAuth callback, credential resolution
-/

/-- Environment configuration read at module import (`os.environ.get`):
each entry is `none` when the variable is unset. -/
structure Config where
  GOOGLE_CLIENT_ID : Option String
  GOOGLE_CLIENT_SECRET : Option String
  BASE_URL : Option String

/-- Python rendering of an optional string into an f-string
(`None` prints as `"None"`). -/
def pyStr (o : Option String) : String :=
  o.getD "None"

/-- Python `x or y` on optional strings: `None` and the empty string are
falsy, so they fall through to `y`. -/
def pyOr (x y : Option String) : Option String :=
  match x with
  | none => y
  | some s => if s = "" then y else some s

/-- Model of `get_user_id` from `main.py`:
`payload.get("meta", {}).get("user_id", "default")`.  The payload model
carries the already-extracted optional `meta.user_id`. -/
def get_user_id (meta_user_id : Option String) : String :=
  meta_user_id.getD "default"

/-- Model of `auth_error` from `main.py`: the structured 401 error envelope with the
recovery URL for the given user. -/
def auth_error (cfg : Config) (id_ : Option JsonVal) (user_id : String) : JsonVal :=
  .obj [("jsonrpc", .str "2.0"),
        ("id", optJson id_),
        ("error", .obj
          [("code", .num 401),
           ("message", .str ("Google Sheets not connected for user \x27" ++
             user_id ++ "\x27. Visit " ++ pyStr cfg.BASE_URL ++
             "/auth/google?user_id=" ++ user_id))])]

/-- Model of `google_callback` from `main.py`, after the external
`flow.fetch_token` exchange: `cred_token` and `cred_refresh` are
`flow.credentials.token` / `flow.credentials.refresh_token` from the
provider's response, `state` is the round-tripped `state` query parameter.
Loads the store, merges the one record (falling back to the previously
stored refresh token when the response's one is falsy), saves the store. -/
def google_callback (fs : FS) (state : Option String)
    (cred_token cred_refresh : Option String) : FS :=
  let user_id := state.getD "default"
  let tokens := load_tokens fs
  let existing_refresh :=
    match lookupTok tokens user_id with
    | none => none
    | some rec => rec.refresh_token
  let tokens1 := setTok tokens user_id
    { token := cred_token, refresh_token := pyOr cred_refresh existing_refresh }
  save_tokens tokens1 fs

/-- A live `google.oauth2.credentials.Credentials` object as constructed by
`get_sheets_service` (the refresh machinery itself is the library's). -/
structure Credentials where
  token : Option String
  refresh_token : Option String
  token_uri : String
  client_id : Option String
  client_secret : Option String

/-- Model of `get_sheets_service` from `main.py`: `none` when the user has no stored
record, otherwise a service bound to credentials seeded from the record. -/
def get_sheets_service (cfg : Config) (fs : FS) (user_id : String) :
    Option Credentials :=
  let tokens := load_tokens fs
  match lookupTok tokens user_id with
  | none => none
  | some rec =>
      some { token := rec.token,
             refresh_token := rec.refresh_token,
             token_uri := "https://oauth2.googleapis.com/token",
             client_id := cfg.GOOGLE_CLIENT_ID,
             client_secret := cfg.GOOGLE_CLIENT_SECRET }

/-!
## `main.py`: the three sheets capability wrappers

Each remote invocation the code performs is recorded in a trace of
`RemoteCall`s; the remote service's answers come from an oracle
`env : RemoteCall → JsonVal` (the value `.execute()` returns).
-/

/-- One invocation of the remote Sheets API, with the exact parameters the
code passes. -/
inductive RemoteCall where
  | get (spreadsheetId : String) (range : String)
  | update (spreadsheetId : String) (range : String)
      (valueInputOption : String) (body : JsonVal)
  | append (spreadsheetId : String) (range : String)
      (valueInputOption : String) (insertDataOption : String) (body : JsonVal)

/-- Return value of `sheets_read_range`: the `"AUTH_REQUIRED"` sentinel or
the extracted `values`. -/
inductive ReadResult where
  | authRequired
  | values (v : JsonVal)

/-- Return value of `sheets_write_range`: `"AUTH_REQUIRED"` or
`"UPDATED"`. -/
inductive WriteResult where
  | authRequired
  | updated

/-- Return value of `sheets_append_row`: `"AUTH_REQUIRED"` or
`"APPENDED"`. -/
inductive AppendResult where
  | authRequired
  | appended

/-- Model of `sheets_read_range` from `main.py`, paired with the remote calls it
performs. -/
def sheets_read_range (cfg : Config) (env : RemoteCall → JsonVal) (fs : FS)
    (user_id spreadsheet_id range_ : String) : ReadResult × List RemoteCall :=
  match get_sheets_service cfg fs user_id with
  | none => (.authRequired, [])
  | some _ =>
      let result := env (.get spreadsheet_id range_)
      (.values ((result.getKey "values").getD (.arr [])),
       [.get spreadsheet_id range_])

/-- Model of `sheets_write_range` from `main.py`, paired with the remote calls it
performs. -/
def sheets_write_range (cfg : Config) (env : RemoteCall → JsonVal) (fs : FS)
    (user_id spreadsheet_id range_ : String) (values : JsonVal) :
    WriteResult × List RemoteCall :=
  match get_sheets_service cfg fs user_id with
  | none => (.authRequired, [])
  | some _ =>
      let body := JsonVal.obj [("values", values)]
      let _ := env (.update spreadsheet_id range_ "RAW" body)
      (.updated, [.update spreadsheet_id range_ "RAW" body])

/-- Model of `sheets_append_row` from `main.py`, paired with the remote calls it
performs (`body = {"values": [values]}`). -/
def sheets_append_row (cfg : Config) (env : RemoteCall → JsonVal) (fs : FS)
    (user_id spreadsheet_id range_ : String) (values : JsonVal) :
    AppendResult × List RemoteCall :=
  match get_sheets_service cfg fs user_id with
  | none => (.authRequired, [])
  | some _ =>
      let body := JsonVal.obj [("values", .arr [values])]
      let _ := env (.append spreadsheet_id range_ "RAW" "INSERT_ROWS" body)
      (.appended, [.append spreadsheet_id range_ "RAW" "INSERT_ROWS" body])

/-!
## `main.py`: the `/mcp` dispatcher
-/

/-- The `params.arguments` object of a `tools/call` request, with each key
the dispatcher ever reads; `none` marks an absent key (Python raises
`KeyError` on `args[k]` then). -/
structure MCPArgs where
  spreadsheet_id : Option String
  range : Option String
  values : Option JsonVal

/-- The `params` object of a `tools/call` request.  `name` is read with
`payload["params"]["name"]` (KeyError when absent); `arguments` with
`.get("arguments", {})`. -/
structure MCPParams where
  name : Option String
  arguments : Option MCPArgs

/-- An `/mcp` request body, with the fields the handler reads:
`payload.get("method")`, `payload.get("id")`,
`payload.get("meta", {}).get("user_id", ...)`, and `payload["params"]`. -/
structure MCPPayload where
  method : Option String
  id : Option JsonVal
  meta_user_id : Option String
  params : Option MCPParams

/-- What the handler hands back to the transport: an HTTP response with a
status code and JSON body (plain returns are status 200, the catch-all is a
`JSONResponse(status_code=400, ...)`), or an uncaught Python `KeyError` on
the named key, which escapes the handler. -/
inductive HandlerResult where
  | response (status : Nat) (body : JsonVal)
  | keyError (key : String)

/-- The catch-all `JSONResponse` at the bottom of `mcp_handler`:
HTTP 400, JSON-RPC error `-32601` "Method not found". -/
def method_not_found (id_ : Option JsonVal) : HandlerResult :=
  .response 400 (.obj
    [("jsonrpc", .str "2.0"),
     ("id", optJson id_),
     ("error", .obj [("code", .num (-32601)), ("message", .str "Method not found")])])

/-- Model of `mcp_handler` from `main.py`: dispatch on `method`, then for
`tools/call` on `params.name`, with the exact argument-extraction order of
the source (`args["spreadsheet_id"]`, `args["range"]`, `args["values"]`).
Returns the transport outcome paired with the trace of remote Sheets calls
performed. -/
def mcp_handler (cfg : Config) (env : RemoteCall → JsonVal) (fs : FS)
    (payload : MCPPayload) : HandlerResult × List RemoteCall :=
  let id_ := payload.id
  let user_id := get_user_id payload.meta_user_id
  if payload.method = some "initialize" then
    (.response 200 (.obj
      [("jsonrpc", .str "2.0"),
       ("id", optJson id_),
       ("result", .obj
         [("serverInfo", .obj
           [("name", .str "Multi-User Google Sheets MCP"),
            ("version", .str "0.1.0")])])]), [])
  else if payload.method = some "tools/list" then
    (.response 200 (.obj
      [("jsonrpc", .str "2.0"),
       ("id", optJson id_),
       ("result", .obj
         [("tools", .arr
           [.obj [("name", .str "sheets.read_range"),
                  ("description", .str "Read values from a Google Sheet range"),
                  ("inputSchema", .obj
                    [("type", .str "object"),
                     ("properties", .obj
                       [("spreadsheet_id", .obj [("type", .str "string")]),
                        ("range", .obj [("type", .str "string")])]),
                     ("required", .arr [.str "spreadsheet_id", .str "range"])])],
            .obj [("name", .str "sheets.write_range"),
                  ("description", .str "Write values to a Google Sheet range"),
                  ("inputSchema", .obj
                    [("type", .str "object"),
                     ("properties", .obj
                       [("spreadsheet_id", .obj [("type", .str "string")]),
                        ("range", .obj [("type", .str "string")]),
                        ("values", .obj
                          [("type", .str "array"),
                           ("items", .obj
                             [("type", .str "array"),
                              ("items", .obj [("type", .str "string")])])])]),
                     ("required", .arr
                       [.str "spreadsheet_id", .str "range", .str "values"])])],
            .obj [("name", .str "sheets.append_row"),
                  ("description", .str "Append a new row to a Google Sheet"),
                  ("inputSchema", .obj
                    [("type", .str "object"),
                     ("properties", .obj
                       [("spreadsheet_id", .obj [("type", .str "string")]),
                        ("range", .obj [("type", .str "string")]),
                        ("values", .obj
                          [("type", .str "array"),
                           ("items", .obj [("type", .str "string")])])]),
                     ("required", .arr
                       [.str "spreadsheet_id", .str "range", .str "values"])])]])])]),
     [])
  else if payload.method = some "tools/call" then
    match payload.params with
    | none => (.keyError "params", [])
    | some params =>
      match params.name with
      | none => (.keyError "name", [])
      | some tool =>
        let args := params.arguments.getD
          { spreadsheet_id := none, range := none, values := none }
        if tool = "sheets.read_range" then
          match args.spreadsheet_id with
          | none => (.keyError "spreadsheet_id", [])
          | some sid =>
            match args.range with
            | none => (.keyError "range", [])
            | some rng =>
              match sheets_read_range cfg env fs user_id sid rng with
              | (.authRequired, calls) =>
                  (.response 200 (auth_error cfg id_ user_id), calls)
              | (.values v, calls) =>
                  (.response 200 (.obj
                    [("jsonrpc", .str "2.0"),
                     ("id", optJson id_),
                     ("result", .obj
                       [("content", .arr
                         [.obj [("type", .str "json"), ("json", v)]])])]), calls)
        else if tool = "sheets.write_range" then
          match args.spreadsheet_id with
          | none => (.keyError "spreadsheet_id", [])
          | some sid =>
            match args.range with
            | none => (.keyError "range", [])
            | some rng =>
              match args.values with
              | none => (.keyError "values", [])
              | some vals =>
                match sheets_write_range cfg env fs user_id sid rng vals with
                | (.authRequired, calls) =>
                    (.response 200 (auth_error cfg id_ user_id), calls)
                | (.updated, calls) =>
                    (.response 200 (.obj
                      [("jsonrpc", .str "2.0"),
                       ("id", optJson id_),
                       ("result", .obj
                         [("content", .arr
                           [.obj [("type", .str "text"),
                                  ("text", .str "✅ Sheet updated")]])])]), calls)
        else if tool = "sheets.append_row" then
          match args.spreadsheet_id with
          | none => (.keyError "spreadsheet_id", [])
          | some sid =>
            match args.range with
            | none => (.keyError "range", [])
            | some rng =>
              match args.values with
              | none => (.keyError "values", [])
              | some vals =>
                match sheets_append_row cfg env fs user_id sid rng vals with
                | (.authRequired, calls) =>
                    (.response 200 (auth_error cfg id_ user_id), calls)
                | (.appended, calls) =>
                    (.response 200 (.obj
                      [("jsonrpc", .str "2.0"),
                       ("id", optJson id_),
                       ("result", .obj
                         [("content", .arr
                           [.obj [("type", .str "text"),
                                  ("text", .str "➕ Row appended")]])])]), calls)
        else
          (method_not_found id_, [])
  else
    (method_not_found id_, [])

/-!
## Helper lemmas about the store
-/

theorem load_save_tokens (m : TokenMap) (fs : FS) :
    load_tokens (save_tokens m fs) = m := rfl

theorem lookupTok_setTok_self (m : TokenMap) (k : String) (v : TokenRecord) :
    lookupTok (setTok m k v) k = some v := by
  induction m with
  | nil => simp [setTok, lookupTok]
  | cons hd tl ih =>
    obtain ⟨k0, v0⟩ := hd
    by_cases h : k0 = k
    · simp [setTok, h, lookupTok]
    · simp [setTok, h, lookupTok, ih]

theorem lookupTok_setTok_ne (m : TokenMap) (k k' : String) (v : TokenRecord)
    (h : k' ≠ k) : lookupTok (setTok m k v) k' = lookupTok m k' := by
  have hk : ¬(k = k') := fun hh => h hh.symm
  induction m with
  | nil => simp [setTok, lookupTok, hk]
  | cons hd tl ih =>
    obtain ⟨k0, v0⟩ := hd
    by_cases h0 : k0 = k
    · subst h0
      simp [setTok, lookupTok, hk]
    · simp only [setTok, if_neg h0, lookupTok]
      by_cases h1 : k0 = k'
      · simp [h1]
      · simp [h1, ih]

/-!
## Claim theorems
-/

/-- C2: `save_tokens` writes the complete serialized mapping to a fresh
temporary file and only then renames it over the target, so a save
interrupted at any point before the rename (any proper prefix of its steps)
leaves the previously persisted file byte-identical and still readable by
`load_tokens` with the old mapping, while a completed save leaves exactly
the new mapping: the on-disk target is never a partial write. -/
theorem save_tokens_atomic (m : TokenMap) (fs : FS) (k : Nat)
    (hk : k < save_steps.length) :
    (save_interrupted m fs k).target = fs.target ∧
    load_tokens (save_interrupted m fs k) = load_tokens fs ∧
    load_tokens (save_tokens m fs) = m := by
  have hk3 : k < 3 := by simpa [save_steps] using hk
  interval_cases k <;> exact ⟨rfl, rfl, rfl⟩

/-- Witness for C2: interrupting a save of a one-user mapping after the
temp-file write still leaves an absent target file untouched. -/
theorem save_tokens_atomic_witness :
    (save_interrupted [("u", { token := some "t", refresh_token := none })]
        { target := some (.json []), temp := none } 2).target =
      some (.json []) ∧
    load_tokens (save_interrupted
        [("u", { token := some "t", refresh_token := none })]
        { target := some (.json []), temp := none } 2) = [] ∧
    load_tokens (save_tokens [("u", { token := some "t", refresh_token := none })]
        { target := some (.json []), temp := none }) =
      [("u", { token := some "t", refresh_token := none })] :=
  save_tokens_atomic [("u", { token := some "t", refresh_token := none })]
    { target := some (.json []), temp := none } 2 (by decide)

/-- C3: when the provider response of an authorization callback carries a
new access token but omits the refresh token, a user whose stored record
already held refresh token `r` ends up with a stored record whose refresh
token is still `r` and whose access token is the new one. -/
theorem google_callback_preserves_refresh (fs : FS) (store : TokenMap)
    (u t r : String) (rec : TokenRecord)
    (hfs : fs.target = some (.json store))
    (hrec : lookupTok store u = some rec)
    (hr : rec.refresh_token = some r) :
    lookupTok (load_tokens (google_callback fs (some u) (some t) none)) u =
      some { token := some t, refresh_token := some r } := by
  have hload : load_tokens fs = store := by simp [load_tokens, hfs]
  simp [google_callback, hload, hrec, hr, pyOr, load_save_tokens,
    lookupTok_setTok_self]

/-- Witness for C3: a callback without a refresh token for user `"u"`, who
had `"r"` stored, keeps `"r"` and takes the new access token `"t2"`. -/
theorem google_callback_preserves_refresh_witness :
    lookupTok (load_tokens (google_callback
        { target := some (.json
            [("u", { token := some "t1", refresh_token := some "r" })]),
          temp := none }
        (some "u") (some "t2") none)) "u" =
      some { token := some "t2", refresh_token := some "r" } :=
  google_callback_preserves_refresh
    { target := some (.json
        [("u", { token := some "t1", refresh_token := some "r" })]),
      temp := none }
    [("u", { token := some "t1", refresh_token := some "r" })]
    "u" "t2" "r" { token := some "t1", refresh_token := some "r" }
    rfl rfl rfl

/-- C4: `load_tokens` returns the empty mapping, not an error, both when
the backing file is absent and when it exists but is malformed. -/
theorem load_tokens_fail_open (fs : FS) :
    (fs.target = none → load_tokens fs = []) ∧
    (fs.target = some .garbage → load_tokens fs = []) := by
  constructor <;> intro h <;> simp [load_tokens, h]

/-- Witness for C4: an absent token file and a corrupt token file both load
as the empty mapping. -/
theorem load_tokens_fail_open_witness :
    load_tokens { target := none, temp := none } = [] ∧
    load_tokens { target := some .garbage, temp := none } = [] :=
  ⟨(load_tokens_fail_open { target := none, temp := none }).1 rfl,
   (load_tokens_fail_open { target := some .garbage, temp := none }).2 rfl⟩

/-- C9: the authorization callback's read-modify-write touches only the
record keyed by the user id recovered from the round-tripped state: every
other user's stored record is unchanged in the persisted mapping. -/
theorem google_callback_frame (fs : FS) (state : Option String)
    (cred_token cred_refresh : Option String) (v : String)
    (hv : v ≠ state.getD "default") :
    lookupTok (load_tokens (google_callback fs state cred_token cred_refresh)) v =
      lookupTok (load_tokens fs) v := by
  simp only [google_callback, load_save_tokens]
  exact lookupTok_setTok_ne _ _ _ _ hv

/-- Witness for C9: a callback for user `"u"` leaves user `"v"`'s record
untouched. -/
theorem google_callback_frame_witness :
    lookupTok (load_tokens (google_callback
        { target := some (.json
            [("u", { token := some "t1", refresh_token := some "r1" }),
             ("v", { token := some "t2", refresh_token := some "r2" })]),
          temp := none }
        (some "u") (some "t3") none)) "v" =
      lookupTok (load_tokens
        { target := some (.json
            [("u", { token := some "t1", refresh_token := some "r1" }),
             ("v", { token := some "t2", refresh_token := some "r2" })]),
          temp := none }) "v" :=
  google_callback_frame
    { target := some (.json
        [("u", { token := some "t1", refresh_token := some "r1" }),
         ("v", { token := some "t2", refresh_token := some "r2" })]),
      temp := none }
    (some "u") (some "t3") none "v" (by decide)

/-- C7: a request whose method is none of `initialize`, `tools/list`,
`tools/call` gets the structured catch-all response — JSON-RPC error code
`-32601` — and never an exception (the result is a `response`, not a
`keyError`). -/
theorem mcp_unknown_method (cfg : Config) (env : RemoteCall → JsonVal)
    (fs : FS) (payload : MCPPayload)
    (h1 : payload.method ≠ some "initialize")
    (h2 : payload.method ≠ some "tools/list")
    (h3 : payload.method ≠ some "tools/call") :
    mcp_handler cfg env fs payload = (method_not_found payload.id, []) ∧
    ∃ body, method_not_found payload.id = .response 400 body ∧
      (body.getKey "error").bind (fun e => e.getKey "code") =
        some (.num (-32601)) := by
  constructor
  · simp [mcp_handler, h1, h2, h3]
  · exact ⟨_, rfl, rfl⟩

/-- Witness for C7: `method = "unknown"` yields the `-32601` catch-all. -/
theorem mcp_unknown_method_witness :
    mcp_handler
        { GOOGLE_CLIENT_ID := none, GOOGLE_CLIENT_SECRET := none,
          BASE_URL := none }
        (fun _ => .null) { target := none, temp := none }
        { method := some "unknown", id := some (.num 7), meta_user_id := none,
          params := none } =
      (method_not_found (some (.num 7)), []) ∧
    ∃ body, method_not_found (some (.num 7)) = .response 400 body ∧
      (body.getKey "error").bind (fun e => e.getKey "code") =
        some (.num (-32601)) :=
  mcp_unknown_method
    { GOOGLE_CLIENT_ID := none, GOOGLE_CLIENT_SECRET := none, BASE_URL := none }
    (fun _ => .null) { target := none, temp := none }
    { method := some "unknown", id := some (.num 7), meta_user_id := none,
      params := none }
    (by decide) (by decide) (by decide)

/-- C10: a `tools/call` whose `params.name` is none of the three catalogued
tool names falls through to the very same catch-all used for unknown
methods — error code `-32601` with HTTP status 400 — not a tool-specific or
argument-level error. -/
theorem mcp_unknown_tool_fallthrough (cfg : Config) (env : RemoteCall → JsonVal)
    (fs : FS) (id_ : Option JsonVal) (meta : Option String)
    (args : Option MCPArgs) (tool : String)
    (h1 : tool ≠ "sheets.read_range")
    (h2 : tool ≠ "sheets.write_range")
    (h3 : tool ≠ "sheets.append_row") :
    mcp_handler cfg env fs
      { method := some "tools/call", id := id_, meta_user_id := meta,
        params := some { name := some tool, arguments := args } } =
      (method_not_found id_, []) ∧
    ∃ body, method_not_found id_ = .response 400 body ∧
      (body.getKey "error").bind (fun e => e.getKey "code") =
        some (.num (-32601)) := by
  constructor
  · simp [mcp_handler, h1, h2, h3]
  · exact ⟨_, rfl, rfl⟩

/-- Witness for C10: calling the uncatalogued tool `"sheets.rename"` yields
the `-32601` catch-all with status 400. -/
theorem mcp_unknown_tool_fallthrough_witness :
    mcp_handler
        { GOOGLE_CLIENT_ID := none, GOOGLE_CLIENT_SECRET := none,
          BASE_URL := none }
        (fun _ => .null) { target := none, temp := none }
        { method := some "tools/call", id := some (.str "a"),
          meta_user_id := none,
          params := some { name := some "sheets.rename", arguments := none } } =
      (method_not_found (some (.str "a")), []) ∧
    ∃ body, method_not_found (some (.str "a")) = .response 400 body ∧
      (body.getKey "error").bind (fun e => e.getKey "code") =
        some (.num (-32601)) :=
  mcp_unknown_tool_fallthrough
    { GOOGLE_CLIENT_ID := none, GOOGLE_CLIENT_SECRET := none, BASE_URL := none }
    (fun _ => .null) { target := none, temp := none }
    (some (.str "a")) none none "sheets.rename"
    (by decide) (by decide) (by decide)

/-- C5 (evidence of the divergence): a `tools/call` of `sheets.read_range`
with an empty `arguments` object — for a user who does have stored
credentials — does not produce any structured response: the handler's
`args["spreadsheet_id"]` raises a `KeyError` that escapes to the transport
layer before any validation or remote call happens. -/
theorem mcp_missing_argument_key_error :
    mcp_handler
        { GOOGLE_CLIENT_ID := none, GOOGLE_CLIENT_SECRET := none,
          BASE_URL := some "http://localhost:8000" }
        (fun _ => .null)
        { target := some (.json
            [("u", { token := some "t", refresh_token := some "r" })]),
          temp := none }
        { method := some "tools/call", id := some (.num 1),
          meta_user_id := some "u",
          params := some
            { name := some "sheets.read_range",
              arguments := some
                { spreadsheet_id := none, range := none, values := none } } } =
      (.keyError "spreadsheet_id", []) := rfl

/-- C8: a `tools/call` of `sheets.write_range` with spreadsheet `"S1"`,
range `"A1:B2"` and values `[["x","y"],["1","2"]]` for a user with stored
credentials performs exactly one remote update, with exactly those
parameters and `valueInputOption = "RAW"` (overwrite), and returns the
success envelope whose correlation id is the request's id. -/
theorem mcp_write_range_scenario (cfg : Config) (env : RemoteCall → JsonVal)
    (fs : FS) (u : String) (rec : TokenRecord) (id_ : Option JsonVal)
    (hu : lookupTok (load_tokens fs) u = some rec) :
    mcp_handler cfg env fs
      { method := some "tools/call", id := id_, meta_user_id := some u,
        params := some
          { name := some "sheets.write_range",
            arguments := some
              { spreadsheet_id := some "S1",
                range := some "A1:B2",
                values := some (.arr [.arr [.str "x", .str "y"],
                                      .arr [.str "1", .str "2"]]) } } } =
      (.response 200 (.obj
        [("jsonrpc", .str "2.0"),
         ("id", optJson id_),
         ("result", .obj [("content", .arr
           [.obj [("type", .str "text"), ("text", .str "✅ Sheet updated")]])])]),
       [.update "S1" "A1:B2" "RAW"
          (.obj [("values", .arr [.arr [.str "x", .str "y"],
                                   .arr [.str "1", .str "2"]])])]) := by
  simp [mcp_handler, sheets_write_range, get_sheets_service, get_user_id, hu]

/-- Witness for C8: the scenario run against a one-user store. -/
theorem mcp_write_range_scenario_witness :
    mcp_handler
        { GOOGLE_CLIENT_ID := none, GOOGLE_CLIENT_SECRET := none,
          BASE_URL := none }
        (fun _ => .null)
        { target := some (.json
            [("u", { token := some "t", refresh_token := some "r" })]),
          temp := none }
        { method := some "tools/call", id := some (.num 5),
          meta_user_id := some "u",
          params := some
            { name := some "sheets.write_range",
              arguments := some
                { spreadsheet_id := some "S1",
                  range := some "A1:B2",
                  values := some (.arr [.arr [.str "x", .str "y"],
                                        .arr [.str "1", .str "2"]]) } } } =
      (.response 200 (.obj
        [("jsonrpc", .str "2.0"),
         ("id", optJson (some (.num 5))),
         ("result", .obj [("content", .arr
           [.obj [("type", .str "text"), ("text", .str "✅ Sheet updated")]])])]),
       [.update "S1" "A1:B2" "RAW"
          (.obj [("values", .arr [.arr [.str "x", .str "y"],
                                   .arr [.str "1", .str "2"]])])]) :=
  mcp_write_range_scenario
    { GOOGLE_CLIENT_ID := none, GOOGLE_CLIENT_SECRET := none, BASE_URL := none }
    (fun _ => .null)
    { target := some (.json
        [("u", { token := some "t", refresh_token := some "r" })]),
      temp := none }
    "u" { token := some "t", refresh_token := some "r" } (some (.num 5)) rfl

/-- C1: for a user id with no record in the store, a `tools/call` of any of
the three capabilities (with its arguments supplied) returns the structured
401 authorization error — a response, not an exception, with no remote call
and no success result — and the error message ends with the recovery URL
embedding that exact user id. -/
theorem mcp_missing_user_auth_error (cfg : Config) (env : RemoteCall → JsonVal)
    (fs : FS) (user_id : String) (id_ : Option JsonVal) (sid rng : String)
    (vals : JsonVal) (tool : String)
    (htool : tool = "sheets.read_range" ∨ tool = "sheets.write_range" ∨
      tool = "sheets.append_row")
    (huser : lookupTok (load_tokens fs) user_id = none) :
    mcp_handler cfg env fs
      { method := some "tools/call", id := id_, meta_user_id := some user_id,
        params := some
          { name := some tool,
            arguments := some
              { spreadsheet_id := some sid, range := some rng,
                values := some vals } } } =
      (.response 200 (auth_error cfg id_ user_id), []) ∧
    ∃ p, ((auth_error cfg id_ user_id).getKey "error").bind
        (fun e => e.getKey "message") =
      some (.str (p ++ ("/auth/google?user_id=" ++ user_id))) := by
  constructor
  · rcases htool with h | h | h <;> subst h <;>
      simp [mcp_handler, sheets_read_range, sheets_write_range,
        sheets_append_row, get_sheets_service, get_user_id, huser]
  · refine ⟨"Google Sheets not connected for user \x27" ++ user_id ++
      "\x27. Visit " ++ pyStr cfg.BASE_URL, ?_⟩
    simp [auth_error, JsonVal.getKey, Option.bind, String.append_assoc]

/-- Witness for C1: user `"ghost"` with an empty store gets the 401
authorization error from a `sheets.read_range` call. -/
theorem mcp_missing_user_auth_error_witness :
    mcp_handler
        { GOOGLE_CLIENT_ID := none, GOOGLE_CLIENT_SECRET := none,
          BASE_URL := some "http://localhost:8000" }
        (fun _ => .null) { target := none, temp := none }
        { method := some "tools/call", id := some (.num 2),
          meta_user_id := some "ghost",
          params := some
            { name := some "sheets.read_range",
              arguments := some
                { spreadsheet_id := some "S1", range := some "A1",
                  values := some (.arr []) } } } =
      (.response 200 (auth_error
        { GOOGLE_CLIENT_ID := none, GOOGLE_CLIENT_SECRET := none,
          BASE_URL := some "http://localhost:8000" }
        (some (.num 2)) "ghost"), []) ∧
    ∃ p, ((auth_error
        { GOOGLE_CLIENT_ID := none, GOOGLE_CLIENT_SECRET := none,
          BASE_URL := some "http://localhost:8000" }
        (some (.num 2)) "ghost").getKey "error").bind
        (fun e => e.getKey "message") =
      some (.str (p ++ ("/auth/google?user_id=" ++ "ghost"))) :=
  mcp_missing_user_auth_error
    { GOOGLE_CLIENT_ID := none, GOOGLE_CLIENT_SECRET := none,
      BASE_URL := some "http://localhost:8000" }
    (fun _ => .null) { target := none, temp := none }
    "ghost" (some (.num 2)) "S1" "A1" (.arr []) "sheets.read_range"
    (Or.inl rfl) rfl

/-- C6: every response the `/mcp` handler actually produces — success or
error, for every method including unrecognized ones — carries the protocol
version tag `"jsonrpc": "2.0"` and, as correlation identifier, the `id`
field of the originating request. -/
theorem mcp_response_envelope (cfg : Config) (env : RemoteCall → JsonVal)
    (fs : FS) (payload : MCPPayload) (status : Nat) (body : JsonVal)
    (calls : List RemoteCall)
    (h : mcp_handler cfg env fs payload = (.response status body, calls)) :
    body.getKey "jsonrpc" = some (.str "2.0") ∧
    body.getKey "id" = some (optJson payload.id) := by
  simp only [mcp_handler, method_not_found] at h
  repeat' split at h
  all_goals
    rw [Prod.mk.injEq] at h
    obtain ⟨h1, h2⟩ := h
  all_goals
    first
      | exact (HandlerResult.noConfusion h1)
      | (injection h1 with hs hb
         subst hb
         exact ⟨rfl, rfl⟩)

/-- Witness for C6: the `initialize` response carries the version tag and
the request's id. -/
theorem mcp_response_envelope_witness :
    (JsonVal.obj
      [("jsonrpc", .str "2.0"),
       ("id", optJson (some (.num 9))),
       ("result", .obj
         [("serverInfo", .obj
           [("name", .str "Multi-User Google Sheets MCP"),
            ("version", .str "0.1.0")])])]).getKey "jsonrpc" =
      some (.str "2.0") ∧
    (JsonVal.obj
      [("jsonrpc", .str "2.0"),
       ("id", optJson (some (.num 9))),
       ("result", .obj
         [("serverInfo", .obj
           [("name", .str "Multi-User Google Sheets MCP"),
            ("version", .str "0.1.0")])])]).getKey "id" =
      some (optJson (some (.num 9))) :=
  mcp_response_envelope
    { GOOGLE_CLIENT_ID := none, GOOGLE_CLIENT_SECRET := none, BASE_URL := none }
    (fun _ => .null) { target := none, temp := none }
    { method := some "initialize", id := some (.num 9), meta_user_id := none,
      params := none }
    200
    (JsonVal.obj
      [("jsonrpc", .str "2.0"),
       ("id", optJson (some (.num 9))),
       ("result", .obj
         [("serverInfo", .obj
           [("name", .str "Multi-User Google Sheets MCP"),
            ("version", .str "0.1.0")])])])
    [] rfl
